import Mathlib

/-!
Verification of the ion telemetry-pipeline core (JupiterMetaLabs/ion).

This file is a shallow embedding of the pipeline logic of the repository:
severity levels and the level parser (`internal/core/logger_factory.go`),
the sink-composition factory (`NewZapLogger`), the field model
(`fields.go`, `logger_impl.go`), the trace-correlation bridge
(`context.go`, `logger_impl.go`), the field-filtering core
(`NewFilteringCore`), and the shutdown flow (`ion.go`, `logger_impl.go`,
`internal/core/otel.go`).  External collaborators (the zap logging core
and the OpenTelemetry SDK) are embedded at their call boundary, following
their documented behaviour.
-/

namespace Ion

/-! ### Severity levels (zapcore.Level)

`zapcore.Level` is an `int8`; Debug = -1, Info = 0, Warn = 1, Error = 2,
DPanic = 3, Panic = 4, Fatal = 5.  We model it as `Int`. -/

abbrev Level := Int

def debugLevel : Level := -1
def infoLevel : Level := 0
def warnLevel : Level := 1
def errorLevel : Level := 2
def dpanicLevel : Level := 3
def panicLevel : Level := 4
def fatalLevel : Level := 5

/-- `zapcore.Level.Enabled`: a level enabler at minimum `minL` accepts `lvl`
iff `minL <= lvl`. -/
def levelEnabled (minL lvl : Level) : Bool := minL ≤ lvl

/-- ASCII lower-casing of one character (the behaviour of Go's
`strings.ToLower` on the ASCII level names the code compares against). -/
def lowerChar (c : Char) : Char :=
  if 65 ≤ c.toNat ∧ c.toNat ≤ 90 then Char.ofNat (c.toNat + 32) else c

/-- `strings.ToLower` (collaborator boundary, ASCII range). -/
def asciiLower (s : String) : String := ⟨s.data.map lowerChar⟩

/-- `parseLevel` from `internal/core/logger_factory.go` (lines 301-316):
lower-cases the input and maps `debug/info/warn/warning/error/fatal` to
the corresponding zap level; every other string falls to the default
branch, which returns `zapcore.InfoLevel`. -/
def parseLevel (level : String) : Level :=
  let l := asciiLower level
  if l = "debug" then debugLevel
  else if l = "info" then infoLevel
  else if l = "warn" ∨ l = "warning" then warnLevel
  else if l = "error" then errorLevel
  else if l = "fatal" then fatalLevel
  else infoLevel

/-- `zapcore.Level.String`: the textual name of a level (collaborator
boundary; used by `zapLogger.GetLevel`).  Unknown numeric levels render
as `"Level(d)"`. -/
def levelString (l : Level) : String :=
  if l = debugLevel then "debug"
  else if l = infoLevel then "info"
  else if l = warnLevel then "warn"
  else if l = errorLevel then "error"
  else if l = dpanicLevel then "dpanic"
  else if l = panicLevel then "panic"
  else if l = fatalLevel then "fatal"
  else "Level(" ++ toString l ++ ")"

/-- One arm of `zapcore.Level.UnmarshalText` (collaborator boundary): the
exact-match switch over the recognized level names.  Note `"critical"` is
not among them. -/
def levelUnmarshalCase (s : String) : Option Level :=
  if s = "debug" ∨ s = "DEBUG" then some debugLevel
  else if s = "info" ∨ s = "INFO" ∨ s = "" then some infoLevel
  else if s = "warn" ∨ s = "WARN" then some warnLevel
  else if s = "error" ∨ s = "ERROR" then some errorLevel
  else if s = "dpanic" ∨ s = "DPANIC" then some dpanicLevel
  else if s = "panic" ∨ s = "PANIC" then some panicLevel
  else if s = "fatal" ∨ s = "FATAL" then some fatalLevel
  else none

/-- `zapcore.Level.UnmarshalText` (collaborator boundary): tries the text
as given, then lower-cased; fails (returns `none`) when neither matches. -/
def levelUnmarshalText (s : String) : Option Level :=
  match levelUnmarshalCase s with
  | some l => some l
  | none => levelUnmarshalCase (asciiLower s)

/-- `zapLogger.SetLevel` from `logger_impl.go` (lines 130-135): the gate is
updated only when `UnmarshalText` succeeds; on error the call is a no-op. -/
def setLevel (gate : Level) (level : String) : Level :=
  match levelUnmarshalText level with
  | some l => l
  | none => gate

/-- `zapLogger.GetLevel` from `logger_impl.go` (lines 137-139). -/
def getLevel (gate : Level) : String := levelString gate

/-! ### Configuration

Fields of `internal/config.Config` as read by `NewZapLogger`
(`internal/core/logger_factory.go`).  The `internal/config` package source
is not in the repository snapshot; its field set here is exactly the set
of fields the factory dereferences (`cfg.Level`, per-sink `Enabled` and
`Level` overrides, `File.Path`, `OTEL.Endpoint`,
`Console.ErrorsToStderr`). -/

structure ConsoleConfig where
  enabled : Bool
  level : String
  errorsToStderr : Bool
  deriving Repr, DecidableEq

structure FileConfig where
  enabled : Bool
  level : String
  path : String
  deriving Repr, DecidableEq

structure OTELConfig where
  enabled : Bool
  level : String
  endpoint : String
  deriving Repr, DecidableEq

structure Config where
  level : String
  console : ConsoleConfig
  file : FileConfig
  otel : OTELConfig
  deriving Repr, DecidableEq

/-! ### Effective sink levels and the master gate
(`NewZapLogger`, `internal/core/logger_factory.go` lines 28-65). -/

/-- `globalLevel := parseLevel(cfg.Level)`. -/
def globalLevel (cfg : Config) : Level := parseLevel cfg.level

/-- Console sink level: the per-sink override when set, else the global. -/
def consoleLevel (cfg : Config) : Level :=
  if cfg.console.level ≠ "" then parseLevel cfg.console.level else globalLevel cfg

/-- File sink level: the per-sink override when set, else the global. -/
def fileLevel (cfg : Config) : Level :=
  if cfg.file.level ≠ "" then parseLevel cfg.file.level else globalLevel cfg

/-- OTEL sink level: the per-sink override when set, else the global. -/
def otelLevel (cfg : Config) : Level :=
  if cfg.otel.level ≠ "" then parseLevel cfg.otel.level else globalLevel cfg

/-- The master severity gate (`minLevel` in `NewZapLogger`): starts from
the global level and is lowered by each *enabled* sink whose effective
level is more verbose. -/
def masterGate (cfg : Config) : Level :=
  let m := globalLevel cfg
  let m := if cfg.console.enabled ∧ consoleLevel cfg < m then consoleLevel cfg else m
  let m := if cfg.file.enabled ∧ fileLevel cfg < m then fileLevel cfg else m
  if cfg.otel.enabled ∧ otelLevel cfg < m then otelLevel cfg else m

/-- The effective levels of the currently enabled sinks, in factory order. -/
def enabledSinkLevels (cfg : Config) : List Level :=
  (if cfg.console.enabled then [consoleLevel cfg] else []) ++
  (if cfg.file.enabled then [fileLevel cfg] else []) ++
  (if cfg.otel.enabled then [otelLevel cfg] else [])

/-- The gate the spec describes: the minimum severity across the enabled
sinks alone (stated from the spec's words, for comparison with
`masterGate`); `none` when no sink is enabled. -/
def specEnabledSinksMin (cfg : Config) : Option Level :=
  match enabledSinkLevels cfg with
  | [] => none
  | l :: ls => some (ls.foldl min l)

end Ion

namespace Ion

/-! ### Field model (`fields.go`) -/

/-- `FieldType` from `fields.go`. -/
inductive FieldType where
  | unknownT | stringT | int64T | uint64T | float64T | boolT | errorT | anyT
  deriving Repr, DecidableEq

/-- Payload of the `Interface any` slot of a `Field`.  Go stores a boxed
value together with its dynamic type; the constructors below record the
shapes the repository actually stores there (`uint64` from `Uint64`,
an `error` from `Err`, or nothing). -/
inductive IfaceVal where
  | nullI
  | uintI (n : Nat)
  | errI (e : String)
  | otherI (tag : String)
  deriving Repr, DecidableEq

/-- `Field` from `fields.go`: one populated payload slot per type tag. -/
structure Field where
  key : String
  ftype : FieldType
  integer : Int := 0
  stringVal : String := ""
  iface : IfaceVal := .nullI
  deriving Repr, DecidableEq

/-- `String(key, value)` from `fields.go`. -/
def mkString (key value : String) : Field :=
  { key := key, ftype := .stringT, stringVal := value }

/-- `Int(key, value)` from `fields.go` (widens to int64). -/
def mkInt (key : String) (value : Int) : Field :=
  { key := key, ftype := .int64T, integer := value }

/-- `Int64(key, value)` from `fields.go`. -/
def mkInt64 (key : String) (value : Int) : Field :=
  { key := key, ftype := .int64T, integer := value }

/-- `Uint64(key, value)` from `fields.go`: the value is boxed into the
`Interface` slot. -/
def mkUint64 (key : String) (value : Nat) : Field :=
  { key := key, ftype := .uint64T, iface := .uintI value }

/-- `Float64(key, value)` from `fields.go`.  The repository only moves the
float payload, never computes with it; we model the payload by its bit
pattern (a `UInt64`-sized `Nat`), which the pipeline copies verbatim. -/
def mkFloat64 (key : String) (bits : Nat) : Field :=
  { key := key, ftype := .float64T, integer := Int.ofNat bits }

/-- `Bool(key, value)` from `fields.go`: stores `1` for true, `0` for
false in the `Integer` slot. -/
def mkBool (key : String) (value : Bool) : Field :=
  { key := key, ftype := .boolT, integer := if value then 1 else 0 }

/-- `Err(err)` from `fields.go`. -/
def mkErr (err : Option String) : Field :=
  match err with
  | none => { key := "error", ftype := .anyT, iface := .nullI }
  | some e => { key := "error", ftype := .errorT, iface := .errI e }

/-! ### zap fields (`go.uber.org/zap` boundary)

`zapcore.Field` mirrors `ion.Field`: `{Key, Type, Integer, String,
Interface}`.  `zap.Bool` stores booleans in the `Integer` slot,
`zap.Reflect` boxes an arbitrary value (the repository uses it only for
the context carrier). -/

/-- Model of OTEL/Go `context.Context` as `prepareFields` and
`extractContextZapFields` observe it: the two well-known empty singletons
are distinguished identities; every other context is `derived` and
carries an optional active span identity plus the four optional custom
values the bridge looks up.  A `derived` context with no span and no
values models e.g. `context.WithCancel(context.Background())`. -/
inductive GoCtx where
  | background
  | todo
  | derived (span : Option (String × String))
      (manualTraceID manualSpanID requestID userID : Option String)
  deriving Repr, DecidableEq

inductive ZapIface where
  | nullZ
  | uintZ (n : Nat)
  | errZ (e : String)
  | ctxZ (c : GoCtx)
  | otherZ (tag : String)
  deriving Repr, DecidableEq

inductive ZapFieldType where
  | stringZ | int64Z | uint64Z | float64Z | boolZ | errorZ | reflectZ | anyZ
  deriving Repr, DecidableEq

structure ZapField where
  key : String
  ftype : ZapFieldType
  integer : Int := 0
  stringVal : String := ""
  iface : ZapIface := .nullZ
  deriving Repr, DecidableEq

def zapString (key value : String) : ZapField :=
  { key := key, ftype := .stringZ, stringVal := value }

def zapInt64 (key : String) (value : Int) : ZapField :=
  { key := key, ftype := .int64Z, integer := value }

def zapUint64 (key : String) (value : Nat) : ZapField :=
  { key := key, ftype := .uint64Z, iface := .uintZ value }

def zapFloat64 (key : String) (bits : Nat) : ZapField :=
  { key := key, ftype := .float64Z, integer := Int.ofNat bits }

def zapBool (key : String) (value : Bool) : ZapField :=
  { key := key, ftype := .boolZ, integer := if value then 1 else 0 }

/-- `zap.Error(err)`: attaches the error under the fixed key `"error"`. -/
def zapErr (e : String) : ZapField :=
  { key := "error", ftype := .errorZ, iface := .errZ e }

/-- `zap.Reflect(key, value)` as used for the context carrier. -/
def zapReflect (key : String) (c : GoCtx) : ZapField :=
  { key := key, ftype := .reflectZ, iface := .ctxZ c }

def zapAny (key : String) (v : ZapIface) : ZapField :=
  { key := key, ftype := .anyZ, iface := v }

/-- What a structured sink encoder emits for one field: the key together
with the rendered value (`zapcore.Field.AddTo`).  Booleans are rendered
from the `Integer` slot (`f.Integer == 1`). -/
inductive OutVal where
  | strO (s : String)
  | intO (i : Int)
  | uintO (n : Nat)
  | floatO (bits : Nat)
  | boolO (b : Bool)
  | errO (e : String)
  | reflectO (c : GoCtx)
  | anyO (v : ZapIface)
  deriving Repr, DecidableEq

/-- Sink-side encoding of one zap field (`zapcore.Field.AddTo`). -/
def encodeZapField (f : ZapField) : String × OutVal :=
  match f.ftype with
  | .stringZ => (f.key, .strO f.stringVal)
  | .int64Z => (f.key, .intO f.integer)
  | .uint64Z =>
    match f.iface with
    | .uintZ n => (f.key, .uintO n)
    | v => (f.key, .anyO v)
  | .float64Z => (f.key, .floatO f.integer.toNat)
  | .boolZ => (f.key, .boolO (f.integer == 1))
  | .errorZ =>
    match f.iface with
    | .errZ e => (f.key, .errO e)
    | v => (f.key, .anyO v)
  | .reflectZ =>
    match f.iface with
    | .ctxZ c => (f.key, .reflectO c)
    | v => (f.key, .anyO v)
  | .anyZ => (f.key, .anyO f.iface)

/-! ### Field conversion (`logger_impl.go` lines 141-175) -/

/-- `convertField` from `logger_impl.go`.  The `Uint64Type` arm performs
the Go type assertion `f.Interface.(uint64)`, which panics when the
boxed value is not a `uint64`; that panic is modelled as `Except.error`. -/
def ifaceToZap : IfaceVal → ZapIface
  | .nullI => .nullZ
  | .uintI n => .uintZ n
  | .errI e => .errZ e
  | .otherI t => .otherZ t

def convertField (f : Field) : Except String ZapField :=
  match f.ftype with
  | .stringT => .ok (zapString f.key f.stringVal)
  | .int64T => .ok (zapInt64 f.key f.integer)
  | .uint64T =>
    match f.iface with
    | .uintI n => .ok (zapUint64 f.key n)
    | _ => .error "interface conversion: interface {} is not uint64"
  | .float64T => .ok (zapFloat64 f.key f.integer.toNat)
  | .boolT => .ok (zapBool f.key (f.integer == 1))
  | .errorT =>
    match f.iface with
    | .errI e => .ok (zapErr e)
    | v => .ok (zapAny f.key (ifaceToZap v))
  | _ => .ok (zapAny f.key (ifaceToZap f.iface))

/-- `toZapFields` from `logger_impl.go`: converts each field in order (a
panic in any conversion aborts the whole call). -/
def toZapFields : List Field → Except String (List ZapField)
  | [] => .ok []
  | f :: fs => do
    let zf ← convertField f
    let zfs ← toZapFields fs
    pure (zf :: zfs)

/-- A `Field` whose payload is consistent with its type tag at the one
point where the code can panic (the `uint64` type assertion). -/
def Field.wf (f : Field) : Prop :=
  f.ftype = .uint64T → ∃ n, f.iface = .uintI n

end Ion

namespace Ion

/-! ### Trace-correlation bridge (`context.go`, `logger_impl.go`) -/

/-- `core.SentinelKey` from `internal/core/constants.go`. -/
def sentinelKey : String := "__ion_ctx__"

/-- `trace.SpanContextFromContext(ctx).IsValid()` together with the trace
and span id strings (collaborator boundary): the singletons carry no span;
a `derived` context carries whatever span identity was attached. -/
def spanContextOf : GoCtx → Option (String × String)
  | .background => none
  | .todo => none
  | .derived span _ _ _ _ => span

/-- `ctx.Value(traceIDKey)` lookup (string value or absent). -/
def ctxManualTraceID : GoCtx → Option String
  | .derived _ mt _ _ _ => mt
  | _ => none

def ctxManualSpanID : GoCtx → Option String
  | .derived _ _ ms _ _ => ms
  | _ => none

def ctxRequestID : GoCtx → Option String
  | .derived _ _ _ rq _ => rq
  | _ => none

def ctxUserID : GoCtx → Option String
  | .derived _ _ _ _ us => us
  | _ => none

/-- A `ctx.Value(...)` string result that passes the `ok && v != ""` test. -/
def presentStr : Option String → Option String
  | some v => if v ≠ "" then some v else none
  | none => none

/-- `extractContextZapFields` from `context.go` (lines 64-110): readable
trace/span id strings when a span is active, else the manual fallbacks,
then request id and user id. -/
def extractContextZapFields (ctx : GoCtx) : List ZapField :=
  let base :=
    match spanContextOf ctx with
    | some (t, s) => [zapString "trace_id" t, zapString "span_id" s]
    | none =>
      (match presentStr (ctxManualTraceID ctx) with
       | some t => [zapString "trace_id" t]
       | none => []) ++
      (match presentStr (ctxManualSpanID ctx) with
       | some s => [zapString "span_id" s]
       | none => [])
  let base :=
    match presentStr (ctxRequestID ctx) with
    | some r => base ++ [zapString "request_id" r]
    | none => base
  match presentStr (ctxUserID ctx) with
  | some u => base ++ [zapString "user_id" u]
  | none => base

/-- `zapLogger.prepareFields` from `logger_impl.go` (lines 21-36): converts
the caller's fields, then — only when the context is non-nil and not
identical to `context.Background()` or `context.TODO()` — appends the
extracted readable correlation fields followed by the sentinel carrier
`zap.Reflect(core.SentinelKey, ctx)`. -/
def prepareFields (ctx : Option GoCtx) (fields : List Field) :
    Except String (List ZapField) := do
  let zapFields ← toZapFields fields
  match ctx with
  | none => pure zapFields
  | some c =>
    if c = GoCtx.background ∨ c = GoCtx.todo then
      pure zapFields
    else
      pure (zapFields ++ (extractContextZapFields c ++ [zapReflect sentinelKey c]))

/-! ### Field-filtering core (`NewFilteringCore`, `internal/core`,
mirrored in `filtercore.go`) -/

/-- `filteringCore.shouldFilter`. -/
def shouldFilter (filterKeys : List String) (key : String) : Bool :=
  filterKeys.any (fun k => k == key)

/-- The field list a `filteringCore.Write` hands to its wrapped core. -/
def filterFields (filterKeys : List String) (fields : List ZapField) : List ZapField :=
  fields.filter (fun f => !shouldFilter filterKeys f.key)

/-! ### Sink cores and pipeline composition (`NewZapLogger`,
`buildConsoleCores`, `buildFileCore`, `internal/core/logger_factory.go`) -/

/-- Physical destinations of the configured sinks. -/
inductive SinkId where
  | stdoutSink | stderrSink | fileSink | otelSink
  deriving Repr, DecidableEq

/-- The `zapcore.Core` tree the factory assembles: plain encoder cores
over a destination with a level-enabler predicate, the field-filtering
wrapper, the `levelEnforcer` wrapper, the fan-out `Tee`, and the no-op
core used when no sink is configured. -/
inductive Core where
  | nop
  | leaf (sink : SinkId) (enabled : Level → Bool)
  | filtering (inner : Core) (filterKeys : List String)
  | enforcer (inner : Core) (minL : Level)
  | tee (left right : Core)

/-- `Core.Enabled`: the nop core accepts nothing; a leaf consults its
enabler; `filteringCore` embeds its wrapped core's `Enabled`;
`levelEnforcer.Enabled` consults only its own enabler; `Tee` is the
logical OR of its members. -/
def Core.enabledAt : Core → Level → Bool
  | .nop, _ => false
  | .leaf _ en, lvl => en lvl
  | .filtering inner _, lvl => inner.enabledAt lvl
  | .enforcer _ minL, lvl => levelEnabled minL lvl
  | .tee l r, lvl => l.enabledAt lvl || r.enabledAt lvl

/-- `Core.Write` once a core has been added to a `CheckedEntry`: the
filtering wrapper drops its filtered keys and writes through; the
enforcer writes through; a leaf renders the record to its destination. -/
def Core.directWrite : Core → List ZapField → List (SinkId × List ZapField)
  | .nop, _ => []
  | .leaf s _, fs => [(s, fs)]
  | .filtering inner keys, fs => inner.directWrite (filterFields keys fs)
  | .enforcer inner _, fs => inner.directWrite fs
  | .tee l r, fs => l.directWrite fs ++ r.directWrite fs

/-- `Core.Check` followed by `CheckedEntry.Write`: each core adds itself
when its own `Enabled` (or, for the filtering wrapper, its wrapped core's
`Enabled`) accepts the entry's level, and every added core then receives
the `Write`. -/
def Core.check : Core → Level → List ZapField → List (SinkId × List ZapField)
  | .nop, _, _ => []
  | .leaf s en, lvl, fs => if en lvl then [(s, fs)] else []
  | .filtering inner keys, lvl, fs =>
    if inner.enabledAt lvl then (Core.filtering inner keys).directWrite fs else []
  | .enforcer inner minL, lvl, fs =>
    if levelEnabled minL lvl then (Core.enforcer inner minL).directWrite fs else []
  | .tee l r, lvl, fs => l.check lvl fs ++ r.check lvl fs

/-- The stdout stream enabler of a split console
(`buildConsoleCores`): `level.Enabled(lvl) && lvl < zapcore.WarnLevel`. -/
def stdoutSplitEnabled (minL lvl : Level) : Bool :=
  levelEnabled minL lvl && lvl < warnLevel

/-- The stderr stream enabler of a split console
(`buildConsoleCores`): `level.Enabled(lvl) && lvl >= zapcore.WarnLevel`. -/
def stderrSplitEnabled (minL lvl : Level) : Bool :=
  levelEnabled minL lvl && warnLevel ≤ lvl

/-- `buildConsoleCores` from `internal/core/logger_factory.go` (lines
171-201): two stream cores split at Warn when `ErrorsToStderr` is set,
else a single stdout core at the console level. -/
def buildConsoleCores (cfg : Config) (level : Level) : List Core :=
  if cfg.console.errorsToStderr then
    [Core.leaf .stdoutSink (fun lvl => stdoutSplitEnabled level lvl),
     Core.leaf .stderrSink (fun lvl => stderrSplitEnabled level lvl)]
  else
    [Core.leaf .stdoutSink (fun lvl => levelEnabled level lvl)]

/-- `buildFileCore`: a structured core at the file level (the rotation
writer is an external collaborator; with a non-empty path it exists). -/
def buildFileCore (_cfg : Config) (level : Level) : Core :=
  Core.leaf .fileSink (fun lvl => levelEnabled level lvl)

/-- The list `cores` assembled by `NewZapLogger` (lines 85-115): console
cores and the file core are wrapped in a filter on `SentinelKey`; the OTEL
bridge core is wrapped in the `levelEnforcer` and then in a filter on
`SentinelKey` (letting `trace_id`/`span_id` pass through to the exporter). -/
def factoryCores (cfg : Config) : List Core :=
  (if cfg.console.enabled then
    (buildConsoleCores cfg (consoleLevel cfg)).map
      (fun c => Core.filtering c [sentinelKey])
   else []) ++
  (if cfg.file.enabled ∧ cfg.file.path ≠ "" then
    [Core.filtering (buildFileCore cfg (fileLevel cfg)) [sentinelKey]]
   else []) ++
  (if cfg.otel.enabled ∧ cfg.otel.endpoint ≠ "" then
    [Core.filtering
      (Core.enforcer (Core.leaf .otelSink (fun lvl => levelEnabled infoLevel lvl))
        (otelLevel cfg))
      [sentinelKey]]
   else [])

/-- The `switch len(cores)` combination step of `NewZapLogger` (lines
117-126): zero cores become the no-op core, one core is used directly,
two or more are merged with `zapcore.NewTee`. -/
def combineCores : List Core → Core
  | [] => Core.nop
  | [c] => c
  | c :: cs => cs.foldl Core.tee c

/-- The fatal hook installed on the logger.  `NewZapLogger`
unconditionally appends `zap.WithFatalHook(noExitHook{})`; without that
option zap's default behaviour for a Fatal entry is `os.Exit(1)` after
the write. -/
inductive FatalHook where
  | defaultExit
  | noExit
  deriving Repr, DecidableEq

/-- How a log call hands control back to the caller. -/
inductive Effect where
  | returned
  | exited
  | panicked
  deriving Repr, DecidableEq

/-- `noExitHook.OnWrite` does nothing, so control returns; zap's default
fatal behaviour terminates the process after the write. -/
def afterFatal : FatalHook → Effect
  | .defaultExit => .exited
  | .noExit => .returned

/-- The logger state `NewZapLogger` hands back (success path of the
factory: an OTEL setup error aborts construction and no logger exists,
so log-call claims quantify over constructed loggers). -/
structure LoggerModel where
  core : Core
  gate : Level
  hook : FatalHook

/-- `NewZapLogger` from `internal/core/logger_factory.go`: assembles the
cores, computes the master gate, and installs the no-exit fatal hook. -/
def newZapLogger (cfg : Config) : LoggerModel :=
  { core := combineCores (factoryCores cfg)
    gate := masterGate cfg
    hook := .noExit }

/-- One write through the zap core (`zap.Logger.check` followed by
`CheckedEntry.Write`): the record is offered to the composed core, and
for a Fatal-level entry the installed fatal hook runs after the write. -/
def zapWrite (m : LoggerModel) (lvl : Level) (fields : List ZapField) :
    List (SinkId × List ZapField) × Effect :=
  (m.core.check lvl fields, if lvl = fatalLevel then afterFatal m.hook else .returned)

end Ion

namespace Ion

/-! ### Log-call entry points (`logger_impl.go` lines 38-88) -/

/-- `zapLogger.Debug`: early-returns unless the master gate admits Debug,
then writes through zap. -/
def debugCall (m : LoggerModel) (ctx : Option GoCtx) (fields : List Field) :
    Except String (List (SinkId × List ZapField) × Effect) := do
  if levelEnabled m.gate debugLevel then
    let zf ← prepareFields ctx fields
    pure (zapWrite m debugLevel zf)
  else
    pure ([], .returned)

/-- `zapLogger.Info`. -/
def infoCall (m : LoggerModel) (ctx : Option GoCtx) (fields : List Field) :
    Except String (List (SinkId × List ZapField) × Effect) := do
  if levelEnabled m.gate infoLevel then
    let zf ← prepareFields ctx fields
    pure (zapWrite m infoLevel zf)
  else
    pure ([], .returned)

/-- `zapLogger.Warn`. -/
def warnCall (m : LoggerModel) (ctx : Option GoCtx) (fields : List Field) :
    Except String (List (SinkId × List ZapField) × Effect) := do
  if levelEnabled m.gate warnLevel then
    let zf ← prepareFields ctx fields
    pure (zapWrite m warnLevel zf)
  else
    pure ([], .returned)

/-- `zapLogger.Error`: gate check, prepared fields, then the optional
`zap.Error(err)` append. -/
def errorCall (m : LoggerModel) (ctx : Option GoCtx) (err : Option String)
    (fields : List Field) :
    Except String (List (SinkId × List ZapField) × Effect) := do
  if levelEnabled m.gate errorLevel then
    let zf ← prepareFields ctx fields
    let zf := match err with
      | some e => zf ++ [zapErr e]
      | none => zf
    pure (zapWrite m errorLevel zf)
  else
    pure ([], .returned)

/-- `zapLogger.Critical` from `logger_impl.go` (lines 79-88): no gate
check; prepared fields plus the optional error, then `zap.Fatal` — which,
through the installed fatal hook, runs the hook instead of exiting. -/
def criticalCall (m : LoggerModel) (ctx : Option GoCtx) (err : Option String)
    (fields : List Field) :
    Except String (List (SinkId × List ZapField) × Effect) := do
  let zf ← prepareFields ctx fields
  let zf := match err with
    | some e => zf ++ [zapErr e]
    | none => zf
  pure (zapWrite m fatalLevel zf)

/-- The public severities of the `Logger` interface. -/
inductive Sev where
  | debugS | infoS | warnS | errorS | criticalS
  deriving Repr, DecidableEq

/-- Dispatch of one log write at a given severity (the severity-indexed
view of the five entry points; `err` is carried only by the error and
critical signatures). -/
def writeAt (m : LoggerModel) (sev : Sev) (ctx : Option GoCtx)
    (err : Option String) (fields : List Field) :
    Except String (List (SinkId × List ZapField) × Effect) :=
  match sev with
  | .debugS => debugCall m ctx fields
  | .infoS => infoCall m ctx fields
  | .warnS => warnCall m ctx fields
  | .errorS => errorCall m ctx err fields
  | .criticalS => criticalCall m ctx err fields

/-- The control effect of a log call (`none` when the call aborts with a
Go panic from field conversion). -/
def effectOf (r : Except String (List (SinkId × List ZapField) × Effect)) :
    Option Effect :=
  match r with
  | .ok (_, e) => some e
  | .error _ => none

/-- The sink outputs of a log call. -/
def outputsOf (r : Except String (List (SinkId × List ZapField) × Effect)) :
    Option (List (SinkId × List ZapField)) :=
  match r with
  | .ok (o, _) => some o
  | .error _ => none

end Ion

namespace Ion

/-! ### Shutdown flow (`ion.go` lines 275-292, `logger_impl.go` lines
112-128, `internal/core/otel.go`, SDK collaborators at their boundary) -/

/-- State of the external collaborators with in-flight or flushable work.
The OTEL SDK providers document their `Shutdown` as idempotent: the first
call drains and stops, subsequent calls return nil without re-draining;
`logDrainErr` / `traceDrainErr` / `syncErr` are the results those
collaborators report when the work is actually performed. -/
structure CollabState where
  sdkLogStopped : Bool
  sdkLogDrains : Nat
  logDrainErr : Option String
  sdkTraceStopped : Bool
  sdkTraceDrains : Nat
  traceDrainErr : Option String
  zapSyncs : Nat
  syncErr : Option String
  deriving Repr, DecidableEq

/-- `sdklog.LoggerProvider.Shutdown` (collaborator boundary): drains once,
then is a no-op returning nil. -/
def sdkLogShutdown (s : CollabState) : CollabState × Option String :=
  if s.sdkLogStopped then (s, none)
  else ({ s with sdkLogStopped := true, sdkLogDrains := s.sdkLogDrains + 1 },
        s.logDrainErr)

/-- `sdktrace.TracerProvider.Shutdown` (collaborator boundary): likewise
idempotent. -/
def sdkTraceShutdown (s : CollabState) : CollabState × Option String :=
  if s.sdkTraceStopped then (s, none)
  else ({ s with sdkTraceStopped := true, sdkTraceDrains := s.sdkTraceDrains + 1 },
        s.traceDrainErr)

/-- `zap.Logger.Sync` (collaborator boundary): flushes buffered local
output each time it is called. -/
def zapSync (s : CollabState) : CollabState × Option String :=
  ({ s with zapSyncs := s.zapSyncs + 1 }, s.syncErr)

/-- The `Ion` instance's shutdown-relevant wiring: whether a tracer
provider and an OTEL log provider were constructed. -/
structure IonState where
  hasTracerProvider : Bool
  hasOtelProvider : Bool
  collab : CollabState
  deriving Repr, DecidableEq

/-- `LogProvider.Shutdown` from `internal/core/otel.go` (lines 45-51):
returns nil for a nil provider, else delegates to the SDK provider. -/
def logProviderShutdown (hasProvider : Bool) (s : CollabState) :
    CollabState × Option String :=
  if hasProvider then sdkLogShutdown s else (s, none)

/-- `TracerProvider.Shutdown` from `internal/core/otel.go` (lines 58-64). -/
def tracerProviderShutdown (hasProvider : Bool) (s : CollabState) :
    CollabState × Option String :=
  if hasProvider then sdkTraceShutdown s else (s, none)

/-- `zapLogger.Shutdown` from `logger_impl.go` (lines 112-128): drains the
OTEL log provider first, then syncs zap, collecting both failures into the
`errs` slice that `errors.Join` combines (`[]` plays nil's role). -/
def zapLoggerShutdown (hasOtel : Bool) (s : CollabState) :
    CollabState × List String :=
  let (s, otelErr) := logProviderShutdown hasOtel s
  let errs := match otelErr with
    | some e => ["otel: " ++ e]
    | none => []
  let (s, syncErr) := zapSync s
  let errs := match syncErr with
    | some e => errs ++ ["zap sync: " ++ e]
    | none => errs
  (s, errs)

/-- The error `Ion.Shutdown` reports: either the tracer provider's own
error or the `errors.Join` of the logger shutdown's collected failures. -/
inductive ShutdownErr where
  | tracerE (e : String)
  | loggerE (errs : List String)
  deriving Repr, DecidableEq

/-- `Ion.Shutdown` from `ion.go` (lines 275-292): shuts down the tracer
provider, then the logger, but keeps only `firstErr` — the logger's
combined error is recorded only when the tracer shutdown reported none. -/
def ionShutdown (st : IonState) : IonState × Option ShutdownErr :=
  let (c, tErr) := tracerProviderShutdown st.hasTracerProvider st.collab
  let firstErr : Option ShutdownErr := tErr.map .tracerE
  let (c, lErrs) := zapLoggerShutdown st.hasOtelProvider c
  let firstErr :=
    if lErrs ≠ [] ∧ firstErr = none then some (.loggerE lErrs) else firstErr
  ({ st with collab := c }, firstErr)

end Ion

namespace Ion

/-! ### General lemmas -/

/-- `levelString` never renders any gate value as `"critical"`: the name
is not among zap's level names, and the fallback rendering starts with
`"Level("`. -/
theorem levelString_ne_critical (l : Level) : levelString l ≠ "critical" := by
  unfold levelString
  split_ifs <;> intro h <;> first
    | simp_all
    | · have hd := congrArg String.data h
        rw [String.data_append] at hd
        simp at hd

/-- Well-formed fields convert without a panic. -/
theorem toZapFields_ok (fields : List Field) (h : ∀ f ∈ fields, f.wf) :
    ∃ zfs, toZapFields fields = .ok zfs := by
  induction fields with
  | nil => exact ⟨[], rfl⟩
  | cons f fs ih =>
    obtain ⟨zfs, hz⟩ := ih (fun g hg => h g (List.mem_cons_of_mem f hg))
    have hf := h f (List.mem_cons_self f fs)
    unfold Field.wf at hf
    have hok : ∃ zf, convertField f = .ok zf := by
      unfold convertField
      cases hft : f.ftype
      case uint64T =>
        obtain ⟨n, hn⟩ := hf hft
        rw [hn]
        simp
      case errorT => cases f.iface <;> simp
      all_goals simp
    obtain ⟨zf, hzf⟩ := hok
    refine ⟨zf :: zfs, ?_⟩
    simp only [toZapFields, hzf, hz]
    rfl

/-- `prepareFields` succeeds exactly when field conversion does. -/
theorem prepareFields_ok (ctx : Option GoCtx) (fields : List Field)
    (zfs : List ZapField) (h : toZapFields fields = .ok zfs) :
    prepareFields ctx fields =
      .ok (match ctx with
           | none => zfs
           | some c =>
             if c = GoCtx.background ∨ c = GoCtx.todo then zfs
             else zfs ++ (extractContextZapFields c ++ [zapReflect sentinelKey c])) := by
  cases ctx with
  | none => simp [prepareFields, h]
  | some c => by_cases hc : c = GoCtx.background ∨ c = GoCtx.todo <;> simp [prepareFields, h, hc]

end Ion

namespace Ion

/-! ### Claim C10 — unrecognized level strings default to info -/

/-- C10: `parseLevel` maps every unrecognized level string — including
`"critical"` — to the info level; `SetLevel("critical")` leaves the gate
unchanged and a subsequent `GetLevel()` never yields `"critical"`; a
configuration `Level` of `"critical"` gates at info. -/
theorem parseLevel_unrecognized_defaults_to_info :
    (∀ s : String,
        asciiLower s ∉ ["debug", "info", "warn", "warning", "error", "fatal"] →
        parseLevel s = infoLevel) ∧
    parseLevel "critical" = infoLevel ∧
    (∀ gate : Level, setLevel gate "critical" = gate) ∧
    (∀ gate : Level, getLevel (setLevel gate "critical") ≠ "critical") ∧
    (∀ cfg : Config, cfg.level = "critical" → globalLevel cfg = infoLevel) ∧
    (∀ cfg : Config, cfg.level = "critical" →
        cfg.console.level = "" → cfg.file.level = "" → cfg.otel.level = "" →
        masterGate cfg = infoLevel) := by
  have hparse : ∀ s : String,
      asciiLower s ∉ ["debug", "info", "warn", "warning", "error", "fatal"] →
      parseLevel s = infoLevel := by
    intro s h
    simp only [List.mem_cons, List.not_mem_nil, or_false, not_or] at h
    obtain ⟨h1, h2, h3, h4, h5, h6⟩ := h
    simp [parseLevel, h1, h2, h3, h4, h5, h6]
  have hcrit : parseLevel "critical" = infoLevel := hparse "critical" (by decide)
  have hset : ∀ gate : Level, setLevel gate "critical" = gate := by
    intro gate
    have : levelUnmarshalText "critical" = none := by decide
    simp [setLevel, this]
  refine ⟨hparse, hcrit, hset, ?_, ?_, ?_⟩
  · intro gate
    rw [hset gate]
    exact levelString_ne_critical gate
  · intro cfg hl
    simp [globalLevel, hl, hcrit]
  · intro cfg hl hc hf ho
    have hg : globalLevel cfg = infoLevel := by simp [globalLevel, hl, hcrit]
    simp [masterGate, consoleLevel, fileLevel, otelLevel, hc, hf, ho, hg]

/-- Witness for C10 at the concrete inputs `"critical"` and gate `info`. -/
theorem parseLevel_unrecognized_defaults_to_info_witness :
    parseLevel "critical" = infoLevel ∧
    setLevel infoLevel "critical" = infoLevel ∧
    getLevel (setLevel infoLevel "critical") ≠ "critical" := by
  refine ⟨parseLevel_unrecognized_defaults_to_info.2.1,
    parseLevel_unrecognized_defaults_to_info.2.2.1 infoLevel,
    parseLevel_unrecognized_defaults_to_info.2.2.2.1 infoLevel⟩

end Ion

namespace Ion

/-! ### Claim C3 — the master severity gate -/

/-- A configuration whose global level (`debug`) is more permissive than
the only enabled sink's minimum (`error`). -/
def globalBelowSinkCfg : Config :=
  { level := "debug"
    console := { enabled := true, level := "error", errorsToStderr := false }
    file := { enabled := false, level := "", path := "" }
    otel := { enabled := false, level := "", endpoint := "" } }

/-- Counterexample to C3 as stated: with the global level at `debug` and
the single enabled sink at minimum `error`, the master gate is `debug`,
not the minimum (`error`) across the enabled sinks. -/
theorem masterGate_not_min_of_enabled_sinks :
    masterGate globalBelowSinkCfg = debugLevel ∧
    specEnabledSinksMin globalBelowSinkCfg = some errorLevel ∧
    masterGate globalBelowSinkCfg ≠ errorLevel := by
  refine ⟨by decide, by decide, by decide⟩

/-- The spec's concrete scenario: one sink at minimum `info`, another at
minimum `debug`, global level `info`. -/
def infoDebugCfg : Config :=
  { level := "info"
    console := { enabled := true, level := "info", errorsToStderr := false }
    file := { enabled := true, level := "debug", path := "/var/log/app.log" }
    otel := { enabled := false, level := "", endpoint := "" } }

/-- C3 (amended): the master gate equals the minimum of the *global*
level and the effective minimums of the currently enabled sinks (not the
minimum over enabled sinks alone); a disabled sink's own minimum does not
influence the gate; in the spec's `info`/`debug` scenario the gate is
`debug`. -/
theorem masterGate_min_of_global_and_enabled_sinks :
    (∀ cfg : Config,
        masterGate cfg = (enabledSinkLevels cfg).foldl min (globalLevel cfg)) ∧
    (∀ cfg : Config, ∀ lvl : String, cfg.file.enabled = false →
        masterGate { cfg with file := { cfg.file with level := lvl } } =
          masterGate cfg) ∧
    masterGate infoDebugCfg = debugLevel := by
  refine ⟨?_, ?_, by decide⟩
  · intro cfg
    rcases hc : cfg.console.enabled <;> rcases hf : cfg.file.enabled <;>
      rcases ho : cfg.otel.enabled <;>
      simp only [masterGate, enabledSinkLevels, hc, hf, ho, Bool.false_eq_true,
        false_and, true_and, if_false, if_true, ite_true, ite_false,
        List.nil_append, List.append_nil, List.foldl, List.append_assoc,
        List.cons_append, List.singleton_append, inf_eq_min, min_def] <;>
      split_ifs <;> linarith
  · intro cfg lvl hf
    simp only [masterGate, consoleLevel, fileLevel, otelLevel, globalLevel, hf,
      Bool.false_eq_true, false_and, if_false, ite_false]

/-- Witness for C3's amended theorem at a concrete configuration with a
disabled file sink. -/
theorem masterGate_min_of_global_and_enabled_sinks_witness :
    masterGate { globalBelowSinkCfg with
        file := { globalBelowSinkCfg.file with level := "fatal" } } =
      masterGate globalBelowSinkCfg := by
  exact masterGate_min_of_global_and_enabled_sinks.2.1 globalBelowSinkCfg "fatal" rfl

end Ion

namespace Ion

/-! ### Claim C7 — monotonic severity filtering per sink and stream -/

/-- Counterexample to C7 as stated: in a split console configured at
minimum `info`, the stderr stream rejects a record of severity `info`
even though `info ≥ info`, so the "accepts every record of severity S2 or
above" property does not hold for each output stream (the stdout stream
likewise rejects `error`, which it hands to stderr instead). -/
theorem split_streams_not_upward_closed :
    infoLevel ≤ infoLevel ∧
    stderrSplitEnabled infoLevel infoLevel = false ∧
    infoLevel ≤ errorLevel ∧
    stdoutSplitEnabled infoLevel errorLevel = false := by
  refine ⟨by decide, by decide, by decide, by decide⟩

/-- C7 (amended): a non-split sink core at minimum S2 accepts exactly the
severities ≥ S2 (rejecting every S1 < S2); the split console *as a sink*
(stdout and stderr streams together) accepts exactly the severities ≥ S2;
each individual stream still rejects everything below S2, but the stderr
stream accepts exactly the severities ≥ max(S2, warn) — upward-closed
acceptance per stream holds for stderr only when S2 ≥ warn. -/
theorem sink_severity_filtering :
    (∀ s2 lvl : Level, levelEnabled s2 lvl = true ↔ s2 ≤ lvl) ∧
    (∀ s2 lvl : Level,
        (stdoutSplitEnabled s2 lvl || stderrSplitEnabled s2 lvl) = levelEnabled s2 lvl) ∧
    (∀ s2 lvl : Level, lvl < s2 →
        stdoutSplitEnabled s2 lvl = false ∧ stderrSplitEnabled s2 lvl = false ∧
        levelEnabled s2 lvl = false) ∧
    (∀ s2 lvl : Level, stderrSplitEnabled s2 lvl = true ↔ max s2 warnLevel ≤ lvl) ∧
    (∀ s2 lvl : Level, warnLevel ≤ s2 →
        (stderrSplitEnabled s2 lvl = true ↔ s2 ≤ lvl)) := by
  refine ⟨?_, ?_, ?_, ?_, ?_⟩
  · intro s2 lvl
    simp [levelEnabled]
  · intro s2 lvl
    simp only [stdoutSplitEnabled, stderrSplitEnabled, levelEnabled]
    by_cases h1 : s2 ≤ lvl <;> by_cases h2 : lvl < warnLevel
    · simp [h1, h2]
    · simp [h1, h2, not_lt.mp h2]
    · simp [h1]
    · simp [h1]
  · intro s2 lvl h
    have h1 : levelEnabled s2 lvl = false := by
      simp only [levelEnabled, decide_eq_false_iff_not, not_le]
      exact h
    refine ⟨?_, ?_, h1⟩
    · simp [stdoutSplitEnabled, h1]
    · simp [stderrSplitEnabled, h1]
  · intro s2 lvl
    simp only [stderrSplitEnabled, levelEnabled, Bool.and_eq_true, decide_eq_true_eq]
    constructor
    · rintro ⟨h1, h2⟩
      exact max_le h1 h2
    · intro hm
      exact ⟨le_trans (le_max_left s2 warnLevel) hm,
        le_trans (le_max_right s2 warnLevel) hm⟩
  · intro s2 lvl h
    simp only [stderrSplitEnabled, levelEnabled, Bool.and_eq_true, decide_eq_true_eq]
    constructor
    · rintro ⟨h1, h2⟩
      exact h1
    · intro h1
      exact ⟨h1, le_trans h h1⟩

/-- Witness for C7's amended theorem: at minimum `error`, a `warn` record
(below the minimum) is rejected by every stream, and the stderr stream
accepts exactly the records at or above `error`. -/
theorem sink_severity_filtering_witness :
    (stdoutSplitEnabled errorLevel warnLevel = false ∧
      stderrSplitEnabled errorLevel warnLevel = false ∧
      levelEnabled errorLevel warnLevel = false) ∧
    (stderrSplitEnabled errorLevel errorLevel = true ↔ errorLevel ≤ errorLevel) := by
  exact ⟨sink_severity_filtering.2.2.1 errorLevel warnLevel (by decide),
    sink_severity_filtering.2.2.2.2 errorLevel errorLevel (by decide)⟩

end Ion

namespace Ion

/-! ### Claim C2 — correlation-field routing per sink -/

/-- Whether a sink-bound record contains a field with the given key. -/
def hasKey (fields : List ZapField) (k : String) : Bool :=
  fields.any (fun f => f.key == k)

/-- The record a given sink received in a fan-out write (first match). -/
def sinkRecord (outs : List (SinkId × List ZapField)) (s : SinkId) :
    Option (List ZapField) :=
  (outs.find? (fun p => p.1 == s)).map Prod.snd

/-- A configuration with console, file, and remote-exporter sinks all
enabled (level `info`, unsplit console). -/
def allSinksCfg : Config :=
  { level := "info"
    console := { enabled := true, level := "", errorsToStderr := false }
    file := { enabled := true, level := "", path := "/var/log/app.log" }
    otel := { enabled := true, level := "", endpoint := "collector:4317" } }

/-- The spec's concrete active-trace context. -/
def specTraceCtx : GoCtx :=
  .derived (some ("4bf92f3577b34da6a3ce929d0e0e4736", "00f067aa0ba902b7"))
    none none none none

/-- Counterexample to C2 as stated: with the spec's trace and span ids,
the record handed to the remote-exporter sink does NOT contain the
sentinel correlation carrier (the factory filters `SentinelKey` from the
OTEL core too) and DOES contain the plain `trace_id`/`span_id` strings. -/
theorem otel_record_lacks_carrier_keeps_strings :
    (sinkRecord
        ((outputsOf (infoCall (newZapLogger allSinksCfg) (some specTraceCtx) [])).getD [])
        .otelSink).map
      (fun r => (hasKey r sentinelKey, hasKey r "trace_id", hasKey r "span_id"))
      = some (false, true, true) := by
  decide

/-- C2 (amended): for every write carrying an active trace identity, the
console-bound and file-bound records contain `trace_id` and `span_id` as
plain strings and not the sentinel carrier — and the remote-exporter-bound
record is identical: it too carries the plain strings and has the sentinel
carrier filtered out before reaching the exporter bridge. -/
theorem trace_identity_routing (t s : String) :
    infoCall (newZapLogger allSinksCfg)
        (some (.derived (some (t, s)) none none none none)) []
      = .ok ([(SinkId.stdoutSink, [zapString "trace_id" t, zapString "span_id" s]),
              (SinkId.fileSink, [zapString "trace_id" t, zapString "span_id" s]),
              (SinkId.otelSink, [zapString "trace_id" t, zapString "span_id" s])],
             .returned) := by
  rfl

end Ion

namespace Ion

/-! ### Claim C6 — traceless contexts and the singleton short-circuit -/

/-- A context that is not one of the two empty singletons but holds no
active trace and no custom values (e.g. the context produced by
`context.WithCancel(context.Background())`). -/
def emptyDerivedCtx : GoCtx := .derived none none none none none

/-- Counterexample to C6 as stated: for a write whose context holds no
active trace and no custom values but is not identical to
`context.Background()`/`context.TODO()`, extraction is NOT skipped and
the sentinel correlation carrier IS attached to the record (the readable
correlation strings are still absent). -/
theorem traceless_derived_ctx_gets_carrier :
    prepareFields (some emptyDerivedCtx) [] =
      .ok [zapReflect sentinelKey emptyDerivedCtx] ∧
    hasKey [zapReflect sentinelKey emptyDerivedCtx] sentinelKey = true := by
  exact ⟨by rfl, by rfl⟩

/-- C6 (amended): the identity short-circuit applies exactly to a nil
context and the two well-known empty singletons — for those, no
correlation fields and no sentinel carrier are attached and extraction is
skipped (the prepared fields are exactly the converted caller fields); for
any other context, even one with no active trace and no custom values,
extraction runs (finding nothing) and the sentinel carrier alone is
appended. -/
theorem singleton_ctx_short_circuit (fields : List Field) (zfs : List ZapField)
    (h : toZapFields fields = .ok zfs) :
    prepareFields none fields = .ok zfs ∧
    prepareFields (some .background) fields = .ok zfs ∧
    prepareFields (some .todo) fields = .ok zfs ∧
    extractContextZapFields emptyDerivedCtx = [] ∧
    prepareFields (some emptyDerivedCtx) fields =
      .ok (zfs ++ [zapReflect sentinelKey emptyDerivedCtx]) := by
  refine ⟨?_, ?_, ?_, by rfl, ?_⟩
  · simpa using prepareFields_ok none fields zfs h
  · simpa using prepareFields_ok (some .background) fields zfs h
  · simpa using prepareFields_ok (some .todo) fields zfs h
  · have := prepareFields_ok (some emptyDerivedCtx) fields zfs h
    simpa [emptyDerivedCtx, extractContextZapFields, spanContextOf,
      ctxManualTraceID, ctxManualSpanID, ctxRequestID, ctxUserID, presentStr]
      using this

/-- Witness for C6's amended theorem at one concrete caller field. -/
theorem singleton_ctx_short_circuit_witness :
    prepareFields none [mkString "k" "v"] = .ok [zapString "k" "v"] ∧
    prepareFields (some .background) [mkString "k" "v"] = .ok [zapString "k" "v"] ∧
    prepareFields (some .todo) [mkString "k" "v"] = .ok [zapString "k" "v"] ∧
    extractContextZapFields emptyDerivedCtx = [] ∧
    prepareFields (some emptyDerivedCtx) [mkString "k" "v"] =
      .ok ([zapString "k" "v"] ++ [zapReflect sentinelKey emptyDerivedCtx]) := by
  exact singleton_ctx_short_circuit [mkString "k" "v"] [zapString "k" "v"] (by rfl)

end Ion

namespace Ion

/-! ### Claim C1 — a critical write never terminates the process -/

/-- C1: for every configuration, every context, every error payload
(including none) and every well-formed field list, a `Critical` log call
hands the record through the composed core and returns control to the
caller: it never exits the process and never unwinds the calling
execution context. -/
theorem critical_write_always_returns (cfg : Config) (ctx : Option GoCtx)
    (err : Option String) (fields : List Field) (h : ∀ f ∈ fields, f.wf) :
    effectOf (criticalCall (newZapLogger cfg) ctx err fields) = some .returned ∧
    effectOf (criticalCall (newZapLogger cfg) ctx err fields) ≠ some .exited ∧
    effectOf (criticalCall (newZapLogger cfg) ctx err fields) ≠ some .panicked := by
  obtain ⟨zfs, hz⟩ := toZapFields_ok fields h
  have hp := prepareFields_ok ctx fields zfs hz
  have hret : effectOf (criticalCall (newZapLogger cfg) ctx err fields)
      = some .returned := by
    cases err <;>
      simp [criticalCall, hp, zapWrite, effectOf, newZapLogger, afterFatal]
  refine ⟨hret, ?_, ?_⟩ <;> rw [hret] <;> simp

/-- Witness for C1 at a concrete configuration (all sinks enabled, split
console), a trace-bearing context, a nil error, and one field. -/
theorem critical_write_always_returns_witness :
    effectOf (criticalCall (newZapLogger allSinksCfg) (some specTraceCtx) none
        [mkString "k" "v"]) = some .returned := by
  exact (critical_write_always_returns allSinksCfg (some specTraceCtx) none
    [mkString "k" "v"] (by intro f hf; simp at hf; simp [hf, Field.wf, mkString])).1

/-! ### Claim C8 — zero configured sinks -/

/-- C8: with console, file, and remote exporter all disabled, every log
write at every severity — with any context, any error payload, and any
well-formed field list — is accepted without error, without panic, and
produces no sink output at all. -/
theorem zero_sinks_write_noop (cfg : Config)
    (hc : cfg.console.enabled = false) (hf : cfg.file.enabled = false)
    (ho : cfg.otel.enabled = false)
    (sev : Sev) (ctx : Option GoCtx) (err : Option String) (fields : List Field)
    (hw : ∀ f ∈ fields, f.wf) :
    writeAt (newZapLogger cfg) sev ctx err fields = .ok ([], .returned) := by
  obtain ⟨zfs, hz⟩ := toZapFields_ok fields hw
  have hp := prepareFields_ok ctx fields zfs hz
  have hcores : factoryCores cfg = [] := by
    simp [factoryCores, hc, hf, ho]
  cases sev <;>
    simp only [writeAt, debugCall, infoCall, warnCall, errorCall, criticalCall] <;>
    (try split_ifs) <;>
    cases err <;>
    first
      | rfl
      | simp [hp, zapWrite, hcores, combineCores, Core.check, afterFatal, newZapLogger]

/-- Witness for C8 at the all-disabled configuration and a critical write
with an error payload. -/
theorem zero_sinks_write_noop_witness :
    writeAt (newZapLogger
        { level := "info"
          console := { enabled := false, level := "", errorsToStderr := false }
          file := { enabled := false, level := "", path := "" }
          otel := { enabled := false, level := "", endpoint := "" } })
      .criticalS (some specTraceCtx) (some "boom") [mkString "k" "v"]
      = .ok ([], .returned) := by
  exact zero_sinks_write_noop _ rfl rfl rfl .criticalS (some specTraceCtx)
    (some "boom") [mkString "k" "v"]
    (by intro f hf; simp at hf; simp [hf, Field.wf, mkString])

end Ion

namespace Ion

/-! ### Claim C9 — primitive field constructors round-trip -/

/-- C9: for each primitive constructor (`String`, `Int`, `Int64`,
`Float64`, `Bool`) and every key and value, converting the constructed
field to its zap form and encoding it on a sink recovers the same key and
the same value; in particular `Bool` stores `true` as integer `1` and is
decoded back to `true`. -/
theorem primitive_field_roundtrip :
    (∀ k v : String, convertField (mkString k v) = .ok (zapString k v) ∧
        encodeZapField (zapString k v) = (k, .strO v)) ∧
    (∀ (k : String) (i : Int), convertField (mkInt k i) = .ok (zapInt64 k i) ∧
        encodeZapField (zapInt64 k i) = (k, .intO i)) ∧
    (∀ (k : String) (i : Int), convertField (mkInt64 k i) = .ok (zapInt64 k i) ∧
        encodeZapField (zapInt64 k i) = (k, .intO i)) ∧
    (∀ (k : String) (bits : Nat), convertField (mkFloat64 k bits) = .ok (zapFloat64 k bits) ∧
        encodeZapField (zapFloat64 k bits) = (k, .floatO bits)) ∧
    (∀ (k : String) (b : Bool), (mkBool k b).integer = (if b then 1 else 0) ∧
        convertField (mkBool k b) = .ok (zapBool k b) ∧
        encodeZapField (zapBool k b) = (k, .boolO b)) := by
  refine ⟨?_, ?_, ?_, ?_, ?_⟩
  · intro k v
    exact ⟨rfl, rfl⟩
  · intro k i
    exact ⟨rfl, rfl⟩
  · intro k i
    exact ⟨rfl, rfl⟩
  · intro k bits
    refine ⟨?_, ?_⟩ <;>
      simp [convertField, mkFloat64, zapFloat64, encodeZapField]
  · intro k b
    refine ⟨rfl, ?_, ?_⟩ <;> cases b <;> rfl

end Ion

namespace Ion

/-! ### Claim C4 — shutdown collects partial failures -/

/-- A fresh collaborator state in which the tracer drain, the
remote-exporter drain, and the local sink flush all fail. -/
def allFailState : IonState :=
  { hasTracerProvider := true
    hasOtelProvider := true
    collab :=
      { sdkLogStopped := false, sdkLogDrains := 0, logDrainErr := some "otel boom"
        sdkTraceStopped := false, sdkTraceDrains := 0, traceDrainErr := some "trace boom"
        zapSyncs := 0, syncErr := some "sync boom" } }

/-- Counterexample to C4 as stated: when the tracer provider also fails,
`Ion.Shutdown` returns only that first error — the remote-exporter drain
failure and the local sink flush failure, though both collected by the
logger's shutdown, are dropped from the reported result. -/
theorem shutdown_reports_only_first_error :
    (ionShutdown allFailState).2 = some (.tracerE "trace boom") ∧
    (zapLoggerShutdown allFailState.hasOtelProvider allFailState.collab).2
      = ["otel: otel boom", "zap sync: sync boom"] := by
  exact ⟨by rfl, by rfl⟩

/-- C4 (amended): the logger's shutdown always performs both phases —
the remote-exporter drain (when a provider exists) and the local sink
flush — without aborting early, and returns the failures of both phases
collected together (`errors.Join`); `Ion.Shutdown` reports that combined
error unless the tracer-provider shutdown itself failed first, in which
case only the tracer error is returned. -/
theorem shutdown_performs_both_phases_and_joins (st : IonState)
    (hfresh : st.collab.sdkLogStopped = false) :
    ((zapLoggerShutdown st.hasOtelProvider st.collab).1.zapSyncs
        = st.collab.zapSyncs + 1) ∧
    (st.hasOtelProvider = true →
      (zapLoggerShutdown st.hasOtelProvider st.collab).1.sdkLogDrains
        = st.collab.sdkLogDrains + 1) ∧
    (st.hasOtelProvider = true → ∀ e, st.collab.logDrainErr = some e →
      ("otel: " ++ e) ∈ (zapLoggerShutdown st.hasOtelProvider st.collab).2) ∧
    (∀ e, st.collab.syncErr = some e →
      ("zap sync: " ++ e) ∈ (zapLoggerShutdown st.hasOtelProvider st.collab).2) ∧
    ((tracerProviderShutdown st.hasTracerProvider st.collab).2 = none →
      (ionShutdown st).2 =
        (match (zapLoggerShutdown st.hasOtelProvider
            (tracerProviderShutdown st.hasTracerProvider st.collab).1).2 with
         | [] => none
         | errs => some (.loggerE errs))) := by
  refine ⟨?_, ?_, ?_, ?_, ?_⟩
  · rcases ho : st.hasOtelProvider <;>
      simp [zapLoggerShutdown, logProviderShutdown, sdkLogShutdown, zapSync, ho, hfresh]
  · intro ho
    simp [zapLoggerShutdown, logProviderShutdown, sdkLogShutdown, zapSync, ho, hfresh]
  · intro ho e he
    rcases hs : st.collab.syncErr <;>
      simp [zapLoggerShutdown, logProviderShutdown, sdkLogShutdown, zapSync, ho,
        hfresh, he, hs]
  · intro e he
    rcases ho : st.hasOtelProvider <;>
      rcases hl : st.collab.logDrainErr <;>
      simp [zapLoggerShutdown, logProviderShutdown, sdkLogShutdown, zapSync, ho,
        hfresh, he, hl]
  · intro htr
    simp only [ionShutdown, htr, Option.map_none]
    rcases hl : (zapLoggerShutdown st.hasOtelProvider
        (tracerProviderShutdown st.hasTracerProvider st.collab).1).2 with _ | ⟨e, es⟩ <;>
      simp [hl]

/-- Witness for C4's amended theorem: both phase failures appear in the
logger shutdown's combined error, and with a healthy tracer the combined
error is what `Ion.Shutdown` reports. -/
theorem shutdown_performs_both_phases_and_joins_witness :
    (("otel: otel boom") ∈
        (zapLoggerShutdown true
          { sdkLogStopped := false, sdkLogDrains := 0, logDrainErr := some "otel boom"
            sdkTraceStopped := false, sdkTraceDrains := 0, traceDrainErr := none
            zapSyncs := 0, syncErr := some "sync boom" }).2) ∧
    (("zap sync: sync boom") ∈
        (zapLoggerShutdown true
          { sdkLogStopped := false, sdkLogDrains := 0, logDrainErr := some "otel boom"
            sdkTraceStopped := false, sdkTraceDrains := 0, traceDrainErr := none
            zapSyncs := 0, syncErr := some "sync boom" }).2) ∧
    (ionShutdown
        { hasTracerProvider := true, hasOtelProvider := true
          collab :=
            { sdkLogStopped := false, sdkLogDrains := 0, logDrainErr := some "otel boom"
              sdkTraceStopped := false, sdkTraceDrains := 0, traceDrainErr := none
              zapSyncs := 0, syncErr := some "sync boom" } }).2
      = some (.loggerE ["otel: otel boom", "zap sync: sync boom"]) := by
  have h := shutdown_performs_both_phases_and_joins
    { hasTracerProvider := true, hasOtelProvider := true
      collab :=
        { sdkLogStopped := false, sdkLogDrains := 0, logDrainErr := some "otel boom"
          sdkTraceStopped := false, sdkTraceDrains := 0, traceDrainErr := none
          zapSyncs := 0, syncErr := some "sync boom" } } rfl
  exact ⟨h.2.2.1 rfl "otel boom" rfl, h.2.2.2.1 "sync boom" rfl,
    by rw [h.2.2.2.2 rfl]; rfl⟩

end Ion

namespace Ion

/-! ### Claim C5 — a second shutdown call -/

/-- C5: after a shutdown that completed without error, a second
`Ion.Shutdown` call returns without error and performs no further drain
on the already-closed collaborators: neither the remote log exporter nor
the tracer provider is drained again (the SDK providers' shutdown is
internally idempotent, and the repository's nil-guards pass the call
through to them). -/
theorem second_shutdown_returns_nil_without_redrain (st : IonState)
    (h : (ionShutdown st).2 = none) :
    (ionShutdown (ionShutdown st).1).2 = none ∧
    (ionShutdown (ionShutdown st).1).1.collab.sdkLogDrains
      = (ionShutdown st).1.collab.sdkLogDrains ∧
    (ionShutdown (ionShutdown st).1).1.collab.sdkTraceDrains
      = (ionShutdown st).1.collab.sdkTraceDrains := by
  rcases st with ⟨htr, hot, ls, lds, le, ts, tds, te, zs, se⟩
  cases htr <;> cases hot <;> cases ls <;> cases ts <;>
    rcases le with _ | e1 <;> rcases te with _ | e2 <;> rcases se with _ | e3 <;>
    simp_all [ionShutdown, tracerProviderShutdown, sdkTraceShutdown,
      logProviderShutdown, sdkLogShutdown, zapLoggerShutdown, zapSync]

/-- Witness for C5 at a fresh, healthy state with both providers wired. -/
theorem second_shutdown_returns_nil_without_redrain_witness :
    ((ionShutdown (ionShutdown
        { hasTracerProvider := true, hasOtelProvider := true
          collab :=
            { sdkLogStopped := false, sdkLogDrains := 0, logDrainErr := none
              sdkTraceStopped := false, sdkTraceDrains := 0, traceDrainErr := none
              zapSyncs := 0, syncErr := none } }).1).2 = none ∧
      (ionShutdown (ionShutdown
        { hasTracerProvider := true, hasOtelProvider := true
          collab :=
            { sdkLogStopped := false, sdkLogDrains := 0, logDrainErr := none
              sdkTraceStopped := false, sdkTraceDrains := 0, traceDrainErr := none
              zapSyncs := 0, syncErr := none } }).1).1.collab.sdkLogDrains
        = (ionShutdown
        { hasTracerProvider := true, hasOtelProvider := true
          collab :=
            { sdkLogStopped := false, sdkLogDrains := 0, logDrainErr := none
              sdkTraceStopped := false, sdkTraceDrains := 0, traceDrainErr := none
              zapSyncs := 0, syncErr := none } }).1.collab.sdkLogDrains ∧
      (ionShutdown (ionShutdown
        { hasTracerProvider := true, hasOtelProvider := true
          collab :=
            { sdkLogStopped := false, sdkLogDrains := 0, logDrainErr := none
              sdkTraceStopped := false, sdkTraceDrains := 0, traceDrainErr := none
              zapSyncs := 0, syncErr := none } }).1).1.collab.sdkTraceDrains
        = (ionShutdown
        { hasTracerProvider := true, hasOtelProvider := true
          collab :=
            { sdkLogStopped := false, sdkLogDrains := 0, logDrainErr := none
              sdkTraceStopped := false, sdkTraceDrains := 0, traceDrainErr := none
              zapSyncs := 0, syncErr := none } }).1.collab.sdkTraceDrains) := by
  exact second_shutdown_returns_nil_without_redrain
    { hasTracerProvider := true, hasOtelProvider := true
      collab :=
        { sdkLogStopped := false, sdkLogDrains := 0, logDrainErr := none
          sdkTraceStopped := false, sdkTraceDrains := 0, traceDrainErr := none
          zapSyncs := 0, syncErr := none } } (by rfl)

end Ion
